import Mathlib

/-!
Shallow embedding of the audio playback controller in
`src/hooks/useAudioPlayer.ts` (repository `audio-agi`).

The hook keeps React state (`speed`, `pitch`, `audioFileName`, `isPlaying`,
`currentTime`, `duration`, `isLoading`) and three refs (`audioContext`,
`audioBuffer`, `pitchShifterRef`).  The external SoundTouch `PitchShifter`
node is modelled through its documented contract: settable `tempo`,
`pitchSemitones` and `percentagePlayed`, `connect`/`disconnect`, and a
"play" event stream delivered only while the node is connected.
JS numbers are modelled as `ℚ`.
-/

namespace AudioAGI

/-- State of the external time-stretch processing node (`PitchShifter`),
modelled through its documented parameter contract. -/
structure NodeState where
  tempo : ℚ
  pitchSemitones : ℚ
  /-- the node's internal play cursor; written as a 0–1 fraction on seek. -/
  percentagePlayed : ℚ
  connected : Bool
deriving DecidableEq, Repr

/-- A fresh `new PitchShifter(ctx, buffer, 1024)`: identity parameters,
cursor at the start, not connected to anything. -/
def NodeState.construct : NodeState :=
  { tempo := 1, pitchSemitones := 0, percentagePlayed := 0, connected := false }

/-- Lifecycle state of the `AudioContext` held in `audioContext.current`. -/
inductive CtxState where
  | running
  | suspended
deriving DecidableEq, Repr

/-- A decoded audio buffer (`audioBuffer.current`); only its duration is
observable through the hook. -/
structure AudioAsset where
  duration : ℚ
deriving DecidableEq, Repr

instance : DecidableEq (Except String AudioAsset) := fun a b =>
  match a, b with
  | Except.ok x, Except.ok y =>
      if h : x = y then Decidable.isTrue (by rw [h])
      else Decidable.isFalse (by simp [h])
  | Except.error x, Except.error y =>
      if h : x = y then Decidable.isTrue (by rw [h])
      else Decidable.isFalse (by simp [h])
  | Except.ok _, Except.error _ => Decidable.isFalse (by simp)
  | Except.error _, Except.ok _ => Decidable.isFalse (by simp)

/-- An input file: its display name and the outcome of decoding its bytes
(`decodeAudioData` either resolves with a buffer or rejects with an error). -/
structure AudioFile where
  name : String
  contents : Except String AudioAsset
deriving DecidableEq, Repr

/-- `UseAudioPlayerOptions`: whether each optional callback was supplied. -/
structure Options where
  hasPlaybackEnd : Bool
  hasError : Bool
deriving DecidableEq, Repr

/-- A callback invocation observable by the caller of the hook. -/
inductive CbCall where
  | endOfPlayback
  | errored (msg : String)
deriving DecidableEq, Repr

/-- The full state held by one `useAudioPlayer` instance: React state plus
the `audioBuffer`, `pitchShifter` and `audioContext` refs. -/
structure PlayerState where
  speed : ℚ
  pitch : ℚ
  audioFileName : Option String
  isPlaying : Bool
  currentTime : ℚ
  duration : ℚ
  isLoading : Bool
  audioBuffer : Option AudioAsset
  pitchShifter : Option NodeState
  ctx : Option CtxState
deriving DecidableEq, Repr

/-- Initial state of the hook (lines 38–48 of `useAudioPlayer.ts`):
speed 1, pitch 0, nothing loaded. -/
def initialState : PlayerState :=
  { speed := 1, pitch := 0, audioFileName := none, isPlaying := false,
    currentTime := 0, duration := 0, isLoading := false,
    audioBuffer := none, pitchShifter := none, ctx := none }

/-- `stop()` (lines 146–156): disconnect the node and rewind its cursor if
one exists, suspend the context if one exists, clear `isPlaying`, zero
`currentTime`. -/
def stop (s : PlayerState) : PlayerState :=
  let s1 :=
    match s.pitchShifter with
    | some n =>
        let n1 : NodeState := { n with connected := false, percentagePlayed := 0 }
        { s with pitchShifter := some n1 }
    | none => s
  let s2 :=
    match s1.ctx with
    | some _ => { s1 with ctx := some CtxState.suspended }
    | none => s1
  { s2 with isPlaying := false, currentTime := 0 }

/-- `play()` (lines 127–136): only when both the node and the context
exist, resume a suspended context, connect the node to the destination and
set `isPlaying`. -/
def play (s : PlayerState) : PlayerState :=
  match s.pitchShifter, s.ctx with
  | some n, some c =>
      let c1 := if c = CtxState.suspended then CtxState.running else c
      { s with ctx := some c1,
               pitchShifter := some ({ n with connected := true }),
               isPlaying := true }
  | _, _ => s

/-- `pause()` (lines 138–144): only when both the node and the context
exist, disconnect the node, suspend the context, clear `isPlaying`. -/
def pause (s : PlayerState) : PlayerState :=
  match s.pitchShifter, s.ctx with
  | some n, some _ =>
      { s with pitchShifter := some ({ n with connected := false }),
               ctx := some CtxState.suspended,
               isPlaying := false }
  | _, _ => s

/-- `seek(time)` (lines 158–173): set `currentTime` to the requested time
unconditionally; if a node exists and `duration > 0`, write the node's
cursor to the fraction `time / duration`. -/
def seek (s : PlayerState) (time : ℚ) : PlayerState :=
  let s1 := { s with currentTime := time }
  match s1.pitchShifter with
  | some n =>
      if s1.duration > 0 then
        let n1 : NodeState := { n with percentagePlayed := time / s1.duration }
        { s1 with pitchShifter := some n1 }
      else s1
  | none => s1

/-- `setSpeed` (lines 175–177) together with the reactive effect on
lines 51–55 that pushes the new speed into `pitchShifter.tempo` when a
node exists. -/
def setSpeed (s : PlayerState) (newSpeed : ℚ) : PlayerState :=
  let s1 := { s with speed := newSpeed }
  match s1.pitchShifter with
  | some n => { s1 with pitchShifter := some ({ n with tempo := newSpeed }) }
  | none => s1

/-- `setPitch` (lines 179–181) together with the reactive effect on
lines 57–62 that pushes the new pitch into `pitchShifter.pitchSemitones`
when a node exists. -/
def setPitch (s : PlayerState) (newPitch : ℚ) : PlayerState :=
  let s1 := { s with pitch := newPitch }
  match s1.pitchShifter with
  | some n =>
      { s1 with pitchShifter := some ({ n with pitchSemitones := newPitch }) }
  | none => s1

/-- The synchronous prefix of `loadFile` (lines 64–79), up to the point
where the coroutine suspends awaiting `file.arrayBuffer()` /
`decodeAudioData`: set `isLoading`, stop current playback if playing,
close the previous context and install a fresh running one. -/
def loadFileStart (s : PlayerState) : PlayerState :=
  let s1 := { s with isLoading := true }
  let s2 := if s1.isPlaying then stop s1 else s1
  { s2 with ctx := some CtxState.running }

/-- The continuation of `loadFile` after `decodeAudioData` resolves
(lines 85–115, 122–124): store the buffer, build a `PitchShifter`, push
the current speed and pitch into it, connect it to the destination, set
duration, zero `currentTime`, record the file name, clear `isLoading`.
The position-event subscription it registers is modelled by
`deliverEvents` below. -/
def loadFileFinishOk (s : PlayerState) (asset : AudioAsset) (name : String) :
    PlayerState :=
  let s4 := { s with audioBuffer := some asset }
  let n0 := NodeState.construct
  let n1 := { n0 with tempo := s4.speed }
  let n2 := { n1 with pitchSemitones := s4.pitch }
  let n3 := { n2 with connected := true }
  let s5 := { s4 with pitchShifter := some n3 }
  let s6 := { s5 with duration := asset.duration }
  let s7 := { s6 with currentTime := 0 }
  let s8 := { s7 with audioFileName := some name }
  { s8 with isLoading := false }

/-- `loadFile(file)` run to completion with no interleaved command
(lines 64–125).  On decode failure the catch block fires `onError` with
the caught error (when supplied) and the finally block clears `isLoading`;
nothing else is rolled back. -/
def loadFile (opts : Options) (s : PlayerState) (file : AudioFile) :
    PlayerState × List CbCall :=
  let s3 := loadFileStart s
  match file.contents with
  | Except.ok asset => (loadFileFinishOk s3 asset file.name, [])
  | Except.error e =>
      ({ s3 with isLoading := false },
       if opts.hasError then [CbCall.errored e] else [])

/-- A "play" event from the node: `{ timePlayed, percentagePlayed }`,
with `percentagePlayed` on a 0–100 scale. -/
structure PosEvent where
  timePlayed : ℚ
  percentagePlayed : ℚ
deriving DecidableEq, Repr

/-- The numeric literal `99.9` of the source, as the rational 999/10
(`Rat.divInt` keeps the constant kernel-computable). -/
def endThreshold : ℚ := Rat.divInt 999 10

/-- The position-event handler registered on lines 107–115: adopt the
node's reported time, and at `percentagePlayed ≥ 99.9` run `stop()` and
fire `onPlaybackEnd` when supplied. -/
def onPlayEvent (opts : Options) (s : PlayerState) (e : PosEvent) :
    PlayerState × List CbCall :=
  let s1 := { s with currentTime := e.timePlayed }
  if e.percentagePlayed ≥ endThreshold then
    (stop s1, if opts.hasPlaybackEnd then [CbCall.endOfPlayback] else [])
  else (s1, [])

/-- Whether the session's node exists and is connected — the condition
under which the node emits "play" events (it produces output blocks only
while connected to the destination). -/
def nodeActive (s : PlayerState) : Bool :=
  match s.pitchShifter with
  | some n => n.connected
  | none => false

/-- Deliver a stream of position events to the session: each event is
handled by `onPlayEvent` when the node is active, and silently never
happens when the node is disconnected (a disconnected node renders no
blocks, hence emits no events). -/
def deliverEvents (opts : Options) (s : PlayerState) :
    List PosEvent → PlayerState × List CbCall
  | [] => (s, [])
  | e :: rest =>
      if nodeActive s then
        let p1 := onPlayEvent opts s e
        let p2 := deliverEvents opts p1.1 rest
        (p2.1, p1.2 ++ p2.2)
      else deliverEvents opts s rest

/-- JS `Math.trunc`-style truncation used by the `%` operator on numbers. -/
def jsTrunc (q : ℚ) : ℤ := if q < 0 then ⌈q⌉ else ⌊q⌋

/-- JS remainder `a % b = a - b * trunc(a / b)` (sign of the dividend). -/
def jsRem (a b : ℚ) : ℚ := a - b * (jsTrunc (a / b) : ℚ)

/-- JS `String.prototype.padStart(n, c)` for a single-character pad. -/
def padStart (s : String) (n : Nat) (c : Char) : String :=
  String.mk (List.replicate (n - s.length) c) ++ s

/-- `formatTime(seconds)` (lines 183–187): `Math.floor(seconds / 60)`,
colon, `Math.floor(seconds % 60)` padded to two digits with zeros. -/
def formatTime (seconds : ℚ) : String :=
  toString ⌊seconds / 60⌋ ++ ":" ++ padStart (toString ⌊jsRem seconds 60⌋) 2 '0'

/-- The format the specification describes for `formatTime`: minutes are
`floor(s / 60)` with no leading zero, seconds are `floor(s) mod 60`
zero-padded to two digits. -/
def claimFormatTime (s : ℚ) : String :=
  toString ⌊s / 60⌋ ++ ":" ++ padStart (toString (⌊s⌋ % 60)) 2 '0'

/-- The node's connection flag, when a node exists. -/
def nodeConnected (s : PlayerState) : Option Bool :=
  s.pitchShifter.map fun n => n.connected

/-! Concrete fixtures used by counterexamples and witnesses. -/

/-- Options with both callbacks supplied. -/
def opts0 : Options := { hasPlaybackEnd := true, hasError := true }

/-- A 120-second asset. -/
def asset120 : AudioAsset := { duration := 120 }

/-- A file that decodes to the 120-second asset. -/
def file120 : AudioFile := { name := "song.mp3", contents := Except.ok asset120 }

/-- A file whose decode rejects. -/
def fileBad : AudioFile :=
  { name := "broken.mp3", contents := Except.error "decode failed" }

/-- The session right after successfully loading `file120` from scratch. -/
def loadedState120 : PlayerState := (loadFile opts0 initialState file120).1

/-- The node held by `loadedState120` (and by `playingState120`). -/
def node120 : NodeState :=
  { tempo := 1, pitchSemitones := 0, percentagePlayed := 0, connected := true }

/-- The session after `play()` on the freshly loaded 120-second asset. -/
def playingState120 : PlayerState := play loadedState120

/-- Position-event trace for a completed play-through: an ordinary
mid-playback event followed by one at 99.95%. -/
def endEvents : List PosEvent :=
  [{ timePlayed := 5, percentagePlayed := 50 },
   { timePlayed := 10, percentagePlayed := Rat.divInt 9995 100 }]

/-- A fresh session whose speed was set to 3/2 and pitch to +5 before any
load. -/
def customState : PlayerState :=
  setPitch (setSpeed initialState (Rat.divInt 3 2)) 5

/-- The asset of a first load whose decode resolves late. -/
def assetStale : AudioAsset := { duration := 10 }

/-- The asset of a second load that completes before the first. -/
def assetNew : AudioAsset := { duration := 20 }

/-- Interleaving of two overlapping `loadFile` calls: both synchronous
prefixes run, then the second (newer) decode completes, then the first
(stale) decode completes late. -/
def racedState : PlayerState :=
  loadFileFinishOk
    (loadFileFinishOk (loadFileStart (loadFileStart initialState))
      assetNew "new.mp3")
    assetStale "stale.mp3"

/-! Helper lemmas about the embedded operations. -/

theorem stop_speed (s : PlayerState) : (stop s).speed = s.speed := by
  rcases s with ⟨sp, pi, fn, ip, ct, du, il, ab, ps, cx⟩
  cases ps <;> cases cx <;> simp [stop]

theorem stop_pitch (s : PlayerState) : (stop s).pitch = s.pitch := by
  rcases s with ⟨sp, pi, fn, ip, ct, du, il, ab, ps, cx⟩
  cases ps <;> cases cx <;> simp [stop]

theorem stop_currentTime (s : PlayerState) : (stop s).currentTime = 0 := by
  rcases s with ⟨sp, pi, fn, ip, ct, du, il, ab, ps, cx⟩
  cases ps <;> cases cx <;> simp [stop]

theorem stop_isPlaying (s : PlayerState) : (stop s).isPlaying = false := by
  rcases s with ⟨sp, pi, fn, ip, ct, du, il, ab, ps, cx⟩
  cases ps <;> cases cx <;> simp [stop]

theorem stop_isLoading (s : PlayerState) : (stop s).isLoading = s.isLoading := by
  rcases s with ⟨sp, pi, fn, ip, ct, du, il, ab, ps, cx⟩
  cases ps <;> cases cx <;> simp [stop]

theorem stop_audioFileName (s : PlayerState) :
    (stop s).audioFileName = s.audioFileName := by
  rcases s with ⟨sp, pi, fn, ip, ct, du, il, ab, ps, cx⟩
  cases ps <;> cases cx <;> simp [stop]

theorem stop_audioBuffer (s : PlayerState) :
    (stop s).audioBuffer = s.audioBuffer := by
  rcases s with ⟨sp, pi, fn, ip, ct, du, il, ab, ps, cx⟩
  cases ps <;> cases cx <;> simp [stop]

theorem stop_duration (s : PlayerState) : (stop s).duration = s.duration := by
  rcases s with ⟨sp, pi, fn, ip, ct, du, il, ab, ps, cx⟩
  cases ps <;> cases cx <;> simp [stop]

theorem stop_pitchShifter_some (s : PlayerState) (n : NodeState)
    (h : s.pitchShifter = some n) :
    (stop s).pitchShifter =
      some ({ n with connected := false, percentagePlayed := 0 }) := by
  rcases s with ⟨sp, pi, fn, ip, ct, du, il, ab, ps, cx⟩
  cases ps <;> cases cx <;> simp_all [stop]

theorem stop_pitchShifter_isSome (s : PlayerState) :
    (stop s).pitchShifter.isSome = s.pitchShifter.isSome := by
  rcases s with ⟨sp, pi, fn, ip, ct, du, il, ab, ps, cx⟩
  cases ps <;> cases cx <;> simp [stop]

theorem stop_ctx_isSome (s : PlayerState) :
    (stop s).ctx.isSome = s.ctx.isSome := by
  rcases s with ⟨sp, pi, fn, ip, ct, du, il, ab, ps, cx⟩
  cases ps <;> cases cx <;> simp [stop]

theorem deliverEvents_inactive (opts : Options) (s : PlayerState)
    (es : List PosEvent) (h : nodeActive s = false) :
    deliverEvents opts s es = (s, []) := by
  induction es with
  | nil => simp [deliverEvents]
  | cons e rest ih => simp [deliverEvents, h, ih]

theorem loadFileStart_speed (s : PlayerState) :
    (loadFileStart s).speed = s.speed := by
  simp only [loadFileStart]
  split
  · simp [stop_speed]
  · rfl

theorem loadFileStart_pitch (s : PlayerState) :
    (loadFileStart s).pitch = s.pitch := by
  simp only [loadFileStart]
  split
  · simp [stop_pitch]
  · rfl

theorem loadFileStart_audioFileName (s : PlayerState) :
    (loadFileStart s).audioFileName = s.audioFileName := by
  simp only [loadFileStart]
  split
  · simp [stop_audioFileName]
  · rfl

theorem loadFileStart_audioBuffer (s : PlayerState) :
    (loadFileStart s).audioBuffer = s.audioBuffer := by
  simp only [loadFileStart]
  split
  · simp [stop_audioBuffer]
  · rfl

theorem loadFileStart_duration (s : PlayerState) :
    (loadFileStart s).duration = s.duration := by
  simp only [loadFileStart]
  split
  · simp [stop_duration]
  · rfl

theorem loadFileStart_pitchShifter_isSome (s : PlayerState) :
    (loadFileStart s).pitchShifter.isSome = s.pitchShifter.isSome := by
  simp only [loadFileStart]
  split
  · simp [stop_pitchShifter_isSome]
  · rfl

theorem loadFileFinishOk_fields (s : PlayerState) (asset : AudioAsset)
    (name : String) :
    (loadFileFinishOk s asset name).pitchShifter =
      some ({ tempo := s.speed, pitchSemitones := s.pitch,
              percentagePlayed := 0, connected := true }) ∧
    (loadFileFinishOk s asset name).duration = asset.duration ∧
    (loadFileFinishOk s asset name).currentTime = 0 ∧
    (loadFileFinishOk s asset name).audioFileName = some name ∧
    (loadFileFinishOk s asset name).audioBuffer = some asset ∧
    (loadFileFinishOk s asset name).isLoading = false ∧
    (loadFileFinishOk s asset name).speed = s.speed ∧
    (loadFileFinishOk s asset name).pitch = s.pitch := by
  simp [loadFileFinishOk, NodeState.construct]

/-- Claim C1 (corrected): `seek(t)` performs no clamping. It writes the
requested time to TransportPosition verbatim, leaves the duration alone,
and, when a node exists and the duration is positive, repositions the
node's cursor to the fraction `t / duration`. -/
theorem seek_unclamped (s : PlayerState) (t : ℚ) :
    (seek s t).currentTime = t ∧ (seek s t).duration = s.duration ∧
    (∀ n, s.pitchShifter = some n → 0 < s.duration →
      (seek s t).pitchShifter =
        some ({ n with percentagePlayed := t / s.duration })) := by
  rcases s with ⟨sp, pi, fn, ip, ct, du, il, ab, ps, cx⟩
  cases ps with
  | none => simp [seek]
  | some n0 =>
      by_cases hd : (0:ℚ) < du
      · simp [seek, hd]
      · simp [seek, hd]

/-- Claim C1 counterexample: on the 120-second asset, `seek(-5)` leaves
TransportPosition at -5 (not 0) and `seek(500)` leaves it at 500
(not 120), refuting the claimed clamping to `[0, duration]`. -/
theorem seek_unclamped_cex :
    loadedState120.duration = 120 ∧
    (seek loadedState120 (-5)).currentTime = -5 ∧
    ¬ (seek loadedState120 (-5)).currentTime = 0 ∧
    (seek loadedState120 500).currentTime = 500 ∧
    ¬ (seek loadedState120 500).currentTime = 120 := by decide

/-- Claim C1 witness: the corrected statement evaluated on the loaded
120-second asset at `seek(-5)`. -/
theorem seek_unclamped_witness :
    loadedState120.pitchShifter = some node120 ∧
    (0:ℚ) < loadedState120.duration ∧
    (seek loadedState120 (-5)).currentTime = -5 ∧
    (seek loadedState120 (-5)).pitchShifter =
      some ({ node120 with percentagePlayed := -5 / loadedState120.duration }) :=
  ⟨by decide, by decide, (seek_unclamped loadedState120 (-5)).1,
   (seek_unclamped loadedState120 (-5)).2.2 node120 (by decide) (by decide)⟩

/-- Claim C4 (corrected): on a successful `loadFile`, the session reaches
Ready with the node constructed from the current TempoPitchParams, the
duration set, TransportPosition reset to 0 — and the node already
connected to the output destination (the `connect` on line 99 runs during
load, not on the first `play()`). -/
theorem load_ready_state (opts : Options) (s : PlayerState) (file : AudioFile)
    (asset : AudioAsset) (h : file.contents = Except.ok asset) :
    (loadFile opts s file).1.pitchShifter =
      some ({ tempo := s.speed, pitchSemitones := s.pitch,
              percentagePlayed := 0, connected := true }) ∧
    (loadFile opts s file).1.duration = asset.duration ∧
    (loadFile opts s file).1.currentTime = 0 ∧
    (loadFile opts s file).1.audioFileName = some file.name ∧
    (loadFile opts s file).1.isLoading = false ∧
    (loadFile opts s file).2 = [] := by
  have hfin := loadFileFinishOk_fields (loadFileStart s) asset file.name
  simp only [loadFile, h]
  refine ⟨?_, hfin.2.1, hfin.2.2.1, hfin.2.2.2.1, hfin.2.2.2.2.2.1, trivial⟩
  rw [hfin.1, loadFileStart_speed, loadFileStart_pitch]

/-- Claim C4 counterexample: immediately after a successful load the node
is connected to the destination, refuting "not yet connected to the
output destination". -/
theorem load_ready_state_cex :
    nodeConnected loadedState120 = some true ∧
    ¬ nodeConnected loadedState120 = some false := by decide

/-- Claim C4 witness: the corrected statement evaluated on a fresh session
loading the 120-second file. -/
theorem load_ready_state_witness :
    file120.contents = Except.ok asset120 ∧
    (loadFile opts0 initialState file120).1.duration = asset120.duration ∧
    (loadFile opts0 initialState file120).1.pitchShifter =
      some ({ tempo := initialState.speed, pitchSemitones := initialState.pitch,
              percentagePlayed := 0, connected := true }) :=
  ⟨by decide,
   (load_ready_state opts0 initialState file120 asset120 (by decide)).2.1,
   (load_ready_state opts0 initialState file120 asset120 (by decide)).1⟩

/-- Claim C10 (confirmed): a successful `loadFile` leaves the stored speed
and pitch untouched, and initializes the new node's `tempo` and
`pitchSemitones` from those current values. -/
theorem params_persist_across_load (opts : Options) (s : PlayerState)
    (file : AudioFile) (asset : AudioAsset)
    (h : file.contents = Except.ok asset) :
    (loadFile opts s file).1.speed = s.speed ∧
    (loadFile opts s file).1.pitch = s.pitch ∧
    (loadFile opts s file).1.pitchShifter.map NodeState.tempo = some s.speed ∧
    (loadFile opts s file).1.pitchShifter.map NodeState.pitchSemitones =
      some s.pitch := by
  have hfin := loadFileFinishOk_fields (loadFileStart s) asset file.name
  simp only [loadFile, h]
  refine ⟨?_, ?_, ?_, ?_⟩
  · rw [hfin.2.2.2.2.2.2.1, loadFileStart_speed]
  · rw [hfin.2.2.2.2.2.2.2, loadFileStart_pitch]
  · rw [hfin.1, loadFileStart_speed]; rfl
  · rw [hfin.1, loadFileStart_pitch]; rfl

/-- Claim C10 witness: loading with speed 3/2 and pitch 5 in effect keeps
both values and pushes them into the fresh node. -/
theorem params_persist_across_load_witness :
    customState.speed = Rat.divInt 3 2 ∧ customState.pitch = 5 ∧
    (loadFile opts0 customState file120).1.speed = customState.speed ∧
    (loadFile opts0 customState file120).1.pitchShifter.map NodeState.tempo =
      some customState.speed :=
  ⟨by decide, by decide,
   (params_persist_across_load opts0 customState file120 asset120 (by decide)).1,
   (params_persist_across_load opts0 customState file120 asset120
     (by decide)).2.2.1⟩

/-- Claim C3 (corrected): on decode failure `onError` fires with the
error and the loading flag is cleared, but nothing is released: the
previous file name, decoded buffer, duration and node (if any) all
survive the failed load.  Only a session that had nothing loaded remains
effectively Idle. -/
theorem decode_failure_state (opts : Options) (s : PlayerState)
    (file : AudioFile) (e : String) (hc : file.contents = Except.error e)
    (he : opts.hasError = true) :
    (loadFile opts s file).2 = [CbCall.errored e] ∧
    (loadFile opts s file).1.isLoading = false ∧
    (loadFile opts s file).1.audioFileName = s.audioFileName ∧
    (loadFile opts s file).1.audioBuffer = s.audioBuffer ∧
    (loadFile opts s file).1.duration = s.duration ∧
    (loadFile opts s file).1.pitchShifter.isSome = s.pitchShifter.isSome := by
  simp only [loadFile, hc, he, if_true]
  refine ⟨trivial, trivial, ?_, ?_, ?_, ?_⟩
  · simp [loadFileStart_audioFileName]
  · simp [loadFileStart_audioBuffer]
  · simp [loadFileStart_duration]
  · simp [loadFileStart_pitchShifter_isSome]

/-- Claim C3 counterexample: a failed decode issued on a session that had
already loaded the 120-second asset retains the stale node, buffer and
file name, refuting "no asset and no processing node is retained". -/
theorem decode_failure_state_cex :
    ¬ (loadFile opts0 loadedState120 fileBad).1.pitchShifter = none ∧
    (loadFile opts0 loadedState120 fileBad).1.audioFileName = some "song.mp3" ∧
    (loadFile opts0 loadedState120 fileBad).1.audioBuffer = some asset120 ∧
    (loadFile opts0 loadedState120 fileBad).2 =
      [CbCall.errored "decode failed"] := by decide

/-- Claim C3 witness: the corrected statement evaluated on the failed
decode after a successful previous load. -/
theorem decode_failure_state_witness :
    fileBad.contents = Except.error "decode failed" ∧
    opts0.hasError = true ∧
    (loadFile opts0 loadedState120 fileBad).2 =
      [CbCall.errored "decode failed"] ∧
    (loadFile opts0 loadedState120 fileBad).1.pitchShifter.isSome =
      loadedState120.pitchShifter.isSome :=
  ⟨by decide, by decide,
   (decode_failure_state opts0 loadedState120 fileBad "decode failed"
     (by decide) (by decide)).1,
   (decode_failure_state opts0 loadedState120 fileBad "decode failed"
     (by decide) (by decide)).2.2.2.2.2⟩

/-- Claim C8 (corrected): the session has no superseded-load detection.
Whenever the first load's decode continuation runs after a second load
has already finished, it overwrites the second load's session state:
buffer, duration and file name all end up belonging to the stale load. -/
theorem stale_load_overwrites (s : PlayerState) (aN aS : AudioAsset)
    (nN nS : String) :
    (loadFileFinishOk (loadFileFinishOk (loadFileStart (loadFileStart s))
        aN nN) aS nS).audioFileName = some nS ∧
    (loadFileFinishOk (loadFileFinishOk (loadFileStart (loadFileStart s))
        aN nN) aS nS).duration = aS.duration ∧
    (loadFileFinishOk (loadFileFinishOk (loadFileStart (loadFileStart s))
        aN nN) aS nS).audioBuffer = some aS := by
  simp [loadFileFinishOk]

/-- Claim C8 counterexample: with the first (stale) decode completing
after the second (new) load finished, the session ends up showing the
stale file, not the new one — the stale completion clobbers the newer
state. -/
theorem stale_load_overwrites_cex :
    racedState.audioFileName = some "stale.mp3" ∧
    ¬ racedState.audioFileName = some "new.mp3" ∧
    racedState.duration = assetStale.duration ∧
    racedState.audioBuffer = some assetStale := by decide

/-- Claim C5 (confirmed): `play()` is idempotent.  A second `play()` with
no intervening command changes nothing, and on any canonical Playing
state (connected node, running context, `isPlaying`) `play()` is the
identity — in particular no state change records a second connection. -/
theorem play_idempotent :
    (∀ s : PlayerState, play (play s) = play s) ∧
    (∀ (s : PlayerState) (n : NodeState), s.isPlaying = true →
      s.pitchShifter = some n → n.connected = true →
      s.ctx = some CtxState.running → play s = s) := by
  constructor
  · intro s
    rcases s with ⟨sp, pi, fn, ip, ct, du, il, ab, ps, cx⟩
    cases ps with
    | none => simp [play]
    | some n =>
        cases cx with
        | none => simp [play]
        | some c => cases n; cases c <;> simp [play]
  · intro s n hip hps hc hctx
    rcases s with ⟨sp, pi, fn, ip, ct, du, il, ab, ps, cx⟩
    cases n
    simp_all [play]

/-- Claim C5 witness: a second `play()` on the playing 120-second session
is the identity. -/
theorem play_idempotent_witness :
    playingState120.isPlaying = true ∧ play playingState120 = playingState120 :=
  ⟨by decide,
   play_idempotent.2 playingState120 node120 (by decide) (by decide)
     (by decide) (by decide)⟩

/-- Claim C6 (confirmed): for speed in [0.5, 2] and pitch in [-12, 12],
`setSpeed` never changes the stored pitch nor the node's
`pitchSemitones`, and `setPitch` never changes the stored speed nor the
node's `tempo`. -/
theorem speed_pitch_independent (s : PlayerState) (v p : ℚ)
    (hv0 : Rat.divInt 1 2 ≤ v) (hv1 : v ≤ 2)
    (hp0 : -12 ≤ p) (hp1 : p ≤ 12) :
    (setSpeed s v).pitch = s.pitch ∧
    (setSpeed s v).pitchShifter.map NodeState.pitchSemitones =
      s.pitchShifter.map NodeState.pitchSemitones ∧
    (setPitch s p).speed = s.speed ∧
    (setPitch s p).pitchShifter.map NodeState.tempo =
      s.pitchShifter.map NodeState.tempo := by
  rcases s with ⟨sp, pi, fn, ip, ct, du, il, ab, ps, cx⟩
  cases ps <;> simp [setSpeed, setPitch]

/-- Claim C6 witness: the independence statement evaluated at speed 3/2
and pitch 5 on the loaded session. -/
theorem speed_pitch_independent_witness :
    Rat.divInt 1 2 ≤ Rat.divInt 3 2 ∧ (Rat.divInt 3 2 : ℚ) ≤ 2 ∧
    (-12:ℚ) ≤ 5 ∧ (5:ℚ) ≤ 12 ∧
    (setSpeed loadedState120 (Rat.divInt 3 2)).pitch = loadedState120.pitch ∧
    (setPitch loadedState120 5).speed = loadedState120.speed :=
  ⟨by decide, by decide, by decide, by decide,
   (speed_pitch_independent loadedState120 (Rat.divInt 3 2) 5 (by decide)
     (by decide) (by decide) (by decide)).1,
   (speed_pitch_independent loadedState120 (Rat.divInt 3 2) 5 (by decide)
     (by decide) (by decide) (by decide)).2.2.1⟩

theorem stop_ctx_some (s : PlayerState) (c : CtxState) (h : s.ctx = some c) :
    (stop s).ctx = some CtxState.suspended := by
  rcases s with ⟨sp, pi, fn, ip, ct, du, il, ab, ps, cx⟩
  cases ps <;> simp_all [stop]

/-- Claim C7 (confirmed): with an asset loaded (node and context present),
`stop()` from any prior state zeroes TransportPosition, clears
`isPlaying`, keeps the asset (buffer, name, duration), leaves the node
disconnected with its cursor rewound to 0, and a subsequent `play()`
restarts playback without reloading. -/
theorem stop_resets (s : PlayerState) (n : NodeState) (c : CtxState)
    (hn : s.pitchShifter = some n) (hc : s.ctx = some c) :
    (stop s).currentTime = 0 ∧ (stop s).isPlaying = false ∧
    (stop s).audioBuffer = s.audioBuffer ∧
    (stop s).audioFileName = s.audioFileName ∧
    (stop s).duration = s.duration ∧
    (stop s).pitchShifter =
      some ({ n with connected := false, percentagePlayed := 0 }) ∧
    (play (stop s)).isPlaying = true := by
  refine ⟨stop_currentTime s, stop_isPlaying s, stop_audioBuffer s,
    stop_audioFileName s, stop_duration s, stop_pitchShifter_some s n hn, ?_⟩
  have h1 := stop_pitchShifter_some s n hn
  have h2 := stop_ctx_some s c hc
  simp [play, h1, h2]

/-- Claim C7 witness: `stop()` on the playing 120-second session resets
the position to 0 and leaves a state `play()` restarts from. -/
theorem stop_resets_witness :
    playingState120.pitchShifter = some node120 ∧
    playingState120.ctx = some CtxState.running ∧
    (stop playingState120).currentTime = 0 ∧
    (stop playingState120).isPlaying = false ∧
    (play (stop playingState120)).isPlaying = true :=
  ⟨by decide, by decide,
   (stop_resets playingState120 node120 CtxState.running (by decide)
     (by decide)).1,
   (stop_resets playingState120 node120 CtxState.running (by decide)
     (by decide)).2.1,
   (stop_resets playingState120 node120 CtxState.running (by decide)
     (by decide)).2.2.2.2.2.2⟩

/-- Claim C2 (confirmed): while the node is connected and the
`onPlaybackEnd` callback is supplied, delivering any event stream that
reaches `percentagePlayed ≥ 99.9` fires `onPlaybackEnd` exactly once and
leaves the session stopped: `isPlaying` false, TransportPosition 0, node
disconnected (so no further events arrive in this play-through). -/
theorem end_of_asset_once (opts : Options) (es : List PosEvent)
    (s : PlayerState) (n : NodeState) (hn : s.pitchShifter = some n)
    (hc : n.connected = true) (hcb : opts.hasPlaybackEnd = true)
    (hex : ∃ e ∈ es, e.percentagePlayed ≥ endThreshold) :
    (deliverEvents opts s es).2 = [CbCall.endOfPlayback] ∧
    (deliverEvents opts s es).1.isPlaying = false ∧
    (deliverEvents opts s es).1.currentTime = 0 ∧
    nodeActive (deliverEvents opts s es).1 = false := by
  induction es generalizing s with
  | nil => simp at hex
  | cons e rest ih =>
      have hact : nodeActive s = true := by simp [nodeActive, hn, hc]
      have hps1 : ({ s with currentTime := e.timePlayed } :
          PlayerState).pitchShifter = some n := hn
      by_cases hthr : e.percentagePlayed ≥ endThreshold
      · have hstep : onPlayEvent opts s e =
            (stop { s with currentTime := e.timePlayed },
             [CbCall.endOfPlayback]) := by
          simp [onPlayEvent, hthr, hcb]
        have hstop := stop_pitchShifter_some _ n hps1
        have hinact :
            nodeActive (stop { s with currentTime := e.timePlayed }) = false := by
          simp [nodeActive, hstop]
        have hskip := deliverEvents_inactive opts _ rest hinact
        simp only [deliverEvents, hact, if_true, hstep, hskip]
        exact ⟨rfl, stop_isPlaying _, stop_currentTime _, hinact⟩
      · have hstep : onPlayEvent opts s e =
            ({ s with currentTime := e.timePlayed }, []) := by
          simp [onPlayEvent, hthr]
        have hex2 : ∃ e2 ∈ rest, e2.percentagePlayed ≥ endThreshold := by
          rcases hex with ⟨e2, he2, hthr2⟩
          rcases List.mem_cons.mp he2 with heq | hm
          · exact absurd (heq ▸ hthr2) hthr
          · exact ⟨e2, hm, hthr2⟩
        have hrec := ih { s with currentTime := e.timePlayed } hps1 hex2
        simp only [deliverEvents, hact, if_true, hstep]
        simpa using hrec

/-- Claim C2 witness: the playing 120-second session receiving an event
at 50% and then one at 99.95% fires `onPlaybackEnd` exactly once and ends
stopped at position 0. -/
theorem end_of_asset_once_witness :
    playingState120.pitchShifter = some node120 ∧
    node120.connected = true ∧ opts0.hasPlaybackEnd = true ∧
    (deliverEvents opts0 playingState120 endEvents).2 =
      [CbCall.endOfPlayback] ∧
    (deliverEvents opts0 playingState120 endEvents).1.isPlaying = false ∧
    (deliverEvents opts0 playingState120 endEvents).1.currentTime = 0 :=
  ⟨by decide, by decide, by decide,
   (end_of_asset_once opts0 endEvents playingState120 node120 (by decide)
     (by decide) (by decide)
     ⟨{ timePlayed := 10, percentagePlayed := Rat.divInt 9995 100 },
      by decide, by decide⟩).1,
   (end_of_asset_once opts0 endEvents playingState120 node120 (by decide)
     (by decide) (by decide)
     ⟨{ timePlayed := 10, percentagePlayed := Rat.divInt 9995 100 },
      by decide, by decide⟩).2.1,
   (end_of_asset_once opts0 endEvents playingState120 node120 (by decide)
     (by decide) (by decide)
     ⟨{ timePlayed := 10, percentagePlayed := Rat.divInt 9995 100 },
      by decide, by decide⟩).2.2.1⟩

theorem floor_div_sixty (s : ℚ) : ⌊s / 60⌋ = ⌊s⌋ / 60 := by
  have h60 : (0:ℚ) < 60 := by norm_num
  have hdiv : (60:ℤ) * (⌊s⌋ / 60) ≤ ⌊s⌋ ∧ ⌊s⌋ + 1 ≤ 60 * (⌊s⌋ / 60) + 60 := by
    omega
  have hle : ((⌊s⌋ / 60 : ℤ) : ℚ) ≤ s / 60 := by
    rw [le_div_iff₀ h60]
    calc ((⌊s⌋ / 60 : ℤ) : ℚ) * 60 = ((60 * (⌊s⌋ / 60) : ℤ) : ℚ) := by
          push_cast; ring
      _ ≤ (⌊s⌋ : ℚ) := by exact_mod_cast hdiv.1
      _ ≤ s := Int.floor_le s
  have hlt : s / 60 < ((⌊s⌋ / 60 : ℤ) : ℚ) + 1 := by
    rw [div_lt_iff₀ h60]
    calc s < (⌊s⌋ : ℚ) + 1 := Int.lt_floor_add_one s
      _ ≤ ((60 * (⌊s⌋ / 60) + 60 : ℤ) : ℚ) := by exact_mod_cast hdiv.2
      _ = (((⌊s⌋ / 60 : ℤ) : ℚ) + 1) * 60 := by push_cast; ring
  exact Int.floor_eq_iff.mpr ⟨hle, hlt⟩

theorem floor_jsRem_sixty (s : ℚ) (h : 0 ≤ s) : ⌊jsRem s 60⌋ = ⌊s⌋ % 60 := by
  have htr : jsTrunc (s / 60) = ⌊s / 60⌋ := by
    unfold jsTrunc
    rw [if_neg (not_lt.mpr (by positivity))]
  unfold jsRem
  rw [htr, floor_div_sixty]
  have hcast : (60:ℚ) * ((⌊s⌋ / 60 : ℤ) : ℚ) = ((60 * (⌊s⌋ / 60) : ℤ) : ℚ) := by
    push_cast; ring
  rw [hcast, Int.floor_sub_int]
  omega

/-- Claim C9 (confirmed): for every non-negative `s`, `formatTime s` is
`floor(s/60)`, a colon, and `floor(s) mod 60` zero-padded to two digits
with no leading zero on the minutes; in particular the three examples of
the specification evaluate as stated. -/
theorem formatTime_correct :
    (∀ s : ℚ, 0 ≤ s → formatTime s = claimFormatTime s) ∧
    formatTime 65 = "1:05" ∧ formatTime 5 = "0:05" ∧
    formatTime 600 = "10:00" := by
  refine ⟨?_, ?_, ?_, ?_⟩
  · intro s hs
    unfold formatTime claimFormatTime
    rw [floor_jsRem_sixty s hs]
  · have h1 : ⌊(65:ℚ) / 60⌋ = 1 := by norm_num
    have h2 : ⌊jsRem 65 60⌋ = 5 := by
      rw [floor_jsRem_sixty 65 (by norm_num)]
      norm_num
    unfold formatTime
    rw [h1, h2]
    decide
  · have h1 : ⌊(5:ℚ) / 60⌋ = 0 := by norm_num
    have h2 : ⌊jsRem 5 60⌋ = 5 := by
      rw [floor_jsRem_sixty 5 (by norm_num)]
      norm_num
    unfold formatTime
    rw [h1, h2]
    decide
  · have h1 : ⌊(600:ℚ) / 60⌋ = 10 := by norm_num
    have h2 : ⌊jsRem 600 60⌋ = 0 := by
      rw [floor_jsRem_sixty 600 (by norm_num)]
      norm_num
    unfold formatTime
    rw [h1, h2]
    decide

/-- Claim C9 witness: the format equivalence applied at 65 seconds. -/
theorem formatTime_correct_witness :
    (0:ℚ) ≤ 65 ∧ formatTime 65 = claimFormatTime 65 :=
  ⟨by decide, formatTime_correct.1 65 (by decide)⟩

end AudioAGI
